import Mathlib

/-!
Verification of the VN market-data facade and goal-allocation validation
(`src-core/src/vn_market/service.rs`, `src-core/src/goals/goals_service.rs`).

The Rust code is shallowly embedded: pure computations become Lean functions,
the service's mutable fields (`known_funds`, `fund_ids`, `quote_cache`) become
an explicit `ServiceState` threaded through the operations, and each awaited
client call (network I/O) becomes an explicit `Except`-valued input, so a
theorem can quantify over every possible upstream outcome.

Rust's `String` case mapping and substring search are modelled on the
code-point list `String.data` (ASCII case mapping; on ASCII input this agrees
with Rust's `to_uppercase`/`to_lowercase`, and UTF-8 order-preservation makes
code-point-level substring/lexicographic comparison agree with Rust's
byte-level ones). `rust_decimal::Decimal` is modelled as `Rat`; the embedded
code only copies and compares decimal values, never rounds them.
-/

/-- ASCII uppercasing of a string, element-wise on its character list
(model of Rust `str::to_uppercase`, which agrees on ASCII input). -/
def upperStr (s : String) : String := ⟨s.data.map Char.toUpper⟩

/-- ASCII lowercasing of a string (model of Rust `str::to_lowercase`). -/
def lowerStr (s : String) : String := ⟨s.data.map Char.toLower⟩

/-- Does `s` start with `pat`? (on character lists). -/
def substrAtL (pat s : List Char) : Bool :=
  match pat, s with
  | [], _ => true
  | _ :: _, [] => false
  | p :: ps, c :: cs => p == c && substrAtL ps cs

/-- Does `s` contain `pat` as a contiguous run? (on character lists). -/
def containsL (s pat : List Char) : Bool :=
  match s with
  | [] => substrAtL pat []
  | _ :: cs => substrAtL pat s || containsL cs pat

/-- Model of Rust `str::contains(pat)`: contiguous substring containment. -/
def containsSub (s pat : String) : Bool := containsL s.data pat.data

/-- Split a character list on the dash character (used to model parsing of
"%Y-%m-%d" date strings). Always returns at least one (possibly empty) group. -/
def splitOnDash : List Char → List (List Char)
  | [] => [[]]
  | c :: rest =>
    match splitOnDash rest with
    | [] => [[c]]
    | g :: gs => if c = '-' then [] :: g :: gs else (c :: g) :: gs

/-- Numeric value of a nonempty all-digit character list, `none` otherwise. -/
def digitsVal : List Char → Option Nat
  | [] => none
  | l => l.foldl (fun acc c =>
      match acc with
      | none => none
      | some n => if c.isDigit then some (n * 10 + (c.toNat - 48)) else none)
      (some 0)

/-- Lexicographic strict order on character lists by code point. -/
def lexLtL : List Char → List Char → Bool
  | [], [] => false
  | [], _ :: _ => true
  | _ :: _, [] => false
  | a :: as', b :: bs =>
    if a.val < b.val then true else if a.val == b.val then lexLtL as' bs else false

/-- Model of Rust `&str` comparison `a <= b` (byte-lexicographic; UTF-8
preserves code-point order, so comparison of the code-point lists agrees). -/
def strLe (a b : String) : Bool := !(lexLtL b.data a.data)

/-- Calendar date, model of `chrono::NaiveDate`. -/
structure Date where
  year : Nat
  month : Nat
  day : Nat
deriving DecidableEq, Repr

/-- Strict chronological order on dates. -/
def Date.ltB (a b : Date) : Bool :=
  a.year < b.year ||
    (a.year == b.year && (a.month < b.month || (a.month == b.month && a.day < b.day)))

/-- Gregorian leap-year test. -/
def isLeapYear (y : Nat) : Bool := (y % 4 == 0 && y % 100 != 0) || y % 400 == 0

/-- Number of days in a month of the Gregorian calendar. -/
def daysInMonth (y m : Nat) : Nat :=
  if m == 2 then (if isLeapYear y then 29 else 28)
  else if m == 4 || m == 6 || m == 9 || m == 11 then 30
  else 31

/-- Model of `chrono::NaiveDate::parse_from_str(s, "%Y-%m-%d")`: three
dash-separated all-digit groups (month and day at most two digits), month
1–12, day valid for the month; anything else fails. -/
def parseDateYMD (s : String) : Option Date :=
  match splitOnDash s.data with
  | [y, m, d] =>
    if m.length ≤ 2 && d.length ≤ 2 then
      match digitsVal y, digitsVal m, digitsVal d with
      | some yn, some mn, some dn =>
        if 1 ≤ mn && mn ≤ 12 && 1 ≤ dn && dn ≤ daysInMonth yn mn then
          some ⟨yn, mn, dn⟩
        else none
      | _, _, _ => none
    else none
  | _ => none

/-- Zero-padded two-digit rendering of a number below 100. -/
def toStr2 (n : Nat) : String := if n < 10 then "0" ++ toString n else toString n

/-- Model of `NaiveDate::format("%Y-%m-%d")`. -/
def formatDateYMD (d : Date) : String :=
  toString d.year ++ "-" ++ toStr2 d.month ++ "-" ++ toStr2 d.day

/-- Model of `rust_decimal::Decimal`. The embedded code only moves decimal
values around (it never performs decimal arithmetic), so exact rationals are
a faithful carrier; `Decimal::ZERO` is `0`. -/
abbrev Decimal := Rat

/-- `Decimal::from(i64)` (exact). -/
def decimalOfInt (n : Int) : Decimal := (n : Rat)

/-- `VnAssetType` from `vn_market/cache/models.rs`: closed enumeration of the
four asset classes. -/
inductive VnAssetType where
  | Stock
  | Index
  | Fund
  | Gold
deriving DecidableEq, Repr

/-- Modelled from the spec: `VnMarketError` (`vn_market/errors.rs` is not in
the provided sources). §7 taxonomy: `NoData(symbol, date-token)`,
`FundNotFound(symbol)`, and opaque transport/parse errors passed through
unchanged (collapsed here into one constructor carrying a message). -/
inductive VnMarketError where
  | NoData (symbol : String) (date : String)
  | FundNotFound (symbol : String)
  | Transport (msg : String)
deriving DecidableEq, Repr

deriving instance DecidableEq for Except

/-- `CachedQuote` from `vn_market/cache/models.rs` as used field-for-field by
`service.rs`: symbol, asset type, date, OHLC, volume, optional NAV, optional
buy/sell pair, currency code. -/
structure CachedQuote where
  symbol : String
  asset_type : VnAssetType
  date : Date
  «open» : Decimal
  high : Decimal
  low : Decimal
  close : Decimal
  volume : Decimal
  nav : Option Decimal
  buy_price : Option Decimal
  sell_price : Option Decimal
  currency : String
deriving DecidableEq, Repr

/-- `VnHistoricalRecord` from `vn_market/cache/models.rs`: same shape as
`CachedQuote` (spec §3). -/
structure VnHistoricalRecord where
  symbol : String
  asset_type : VnAssetType
  date : Date
  «open» : Decimal
  high : Decimal
  low : Decimal
  close : Decimal
  volume : Decimal
  nav : Option Decimal
  buy_price : Option Decimal
  sell_price : Option Decimal
  currency : String
deriving DecidableEq, Repr

/-- Modelled from the spec: `VnHistoricalRecord::new` (constructor lives in
`vn_market/cache/models.rs`, not in the provided sources; its argument list is
pinned by the call sites in `service.rs`): takes symbol, asset type, date,
OHLC and volume; NAV and buy/sell start empty; all records carry the fixed
local currency code. -/
def VnHistoricalRecord.new (symbol : String) (ty : VnAssetType) (date : Date)
    (o h l c v : Decimal) : VnHistoricalRecord :=
  { symbol := symbol, asset_type := ty, date := date,
    «open» := o, high := h, low := l, close := c, volume := v,
    nav := none, buy_price := none, sell_price := none, currency := "VND" }

/-- `with_nav` builder used by `fetch_fund_history`. -/
def VnHistoricalRecord.with_nav (r : VnHistoricalRecord) (n : Decimal) :
    VnHistoricalRecord :=
  { r with nav := some n }

/-- `with_gold_prices` builder used by `fetch_gold_history`. -/
def VnHistoricalRecord.with_gold_prices (r : VnHistoricalRecord)
    (buy sell : Decimal) : VnHistoricalRecord :=
  { r with buy_price := some buy, sell_price := some sell }

/-- Modelled from the spec: one entry of the FMarket `funds_listing()`
(§4.4: sequence of id, short name, optional code, name; the field uses in
`service.rs` pin the shape). -/
structure FundInfo where
  id : Int
  short_name : String
  code : Option String
  name : String
deriving DecidableEq, Repr

/-- Modelled from the spec: one FMarket NAV-history record (client model not
in the provided sources): a single NAV per date (§4.4). `normalized_date` is
the date string the client's `normalized_date()` method yields, and `nav`
carries the value of `Decimal::from_f64_retain(record.nav).unwrap_or_default()`
(exact, since every finite `f64` is a rational and the conversion is
lossless on finite values). -/
structure NavRecord where
  normalized_date : String
  nav : Decimal
deriving DecidableEq, Repr

/-- Modelled from the spec: a VCI latest-quote / history row (client model not
in the provided sources): OHLCV plus symbol; `date` is the calendar date of
the upstream timestamp (`timestamp.date_naive()`, time-of-day discarded,
§4.4). -/
structure VciQuote where
  symbol : String
  date : Date
  «open» : Decimal
  high : Decimal
  low : Decimal
  close : Decimal
  volume : Int
deriving DecidableEq, Repr

/-- Modelled from the spec: one entry of the VCI `all_symbols()` listing
(§4.4: each flagged listed/delisted and stock/non-stock, with a display name
and a venue label; the method uses in `search` pin the shape). -/
structure VciSymbolInfo where
  symbol : String
  display_name : String
  exchange : String
  listed : Bool
  stock : Bool
deriving DecidableEq, Repr

/-- Modelled from the spec: the SJC gold quote (client model not in the
provided sources). §4.4: upstream publishes a buy/sell price per date and
the close is the sell price ("OHLC all set to the sell/close price; buy and
sell retained verbatim"), so `close` is derived from `sell_price`. -/
structure SjcQuote where
  symbol : String
  date : Date
  buy_price : Decimal
  sell_price : Decimal
deriving DecidableEq, Repr

/-- Modelled from the spec: the SJC client's close field equals the published
sell price (§4.4 "OHLC all set to the sell/close price"). -/
def SjcQuote.close (q : SjcQuote) : Decimal := q.sell_price

/-- `SearchResult` from `service.rs`: symbol, display name, asset type,
venue label. -/
structure SearchResult where
  symbol : String
  name : String
  asset_type : VnAssetType
  exchange : String
deriving DecidableEq, Repr

/-- The mutable fields of `VnMarketService` that the verified operations
touch, made explicit: `known_funds` (fund alias list, uppercased),
`fund_ids` (alias → FMarket fund id; a `HashMap` modelled as an association
list whose newest insertion shadows older ones, matching `HashMap::insert`
under `get`), and the quote cache (spec §4.3: keyed by the
(symbol, asset type) pair). -/
structure ServiceState where
  known_funds : List String
  fund_ids : List (String × Int)
  quote_cache : List ((String × VnAssetType) × CachedQuote)
deriving DecidableEq, Repr

/-- The state `VnMarketService::new()` starts from: empty registry, empty
cache. -/
def ServiceState.initial : ServiceState :=
  { known_funds := [], fund_ids := [], quote_cache := [] }

/-- `HashMap::insert` on the association-list model: the new binding shadows
any older binding of the same key (lookup is `List.lookup`, first match). -/
def mapInsert (m : List (String × Int)) (k : String) (v : Int) :
    List (String × Int) :=
  (k, v) :: m

/-- Modelled from the spec: `VnQuoteCache::get`
(`vn_market/cache/quote_cache.rs` is not in the provided sources). §4.3:
`get(symbol, asset_type) -> optional CachedQuote`, keyed by the
(symbol, asset type) pair. -/
def cacheGet (cache : List ((String × VnAssetType) × CachedQuote))
    (symbol : String) (ty : VnAssetType) : Option CachedQuote :=
  (cache.find? (fun e => e.1.1 == symbol && e.1.2 == ty)).map (·.2)

/-- Modelled from the spec: `VnQuoteCache::set` (not in the provided
sources). §4.3: `set(quote)` stores the quote under the key formed from the
quote's own symbol and asset-type fields; the newest entry shadows older
ones. -/
def cacheSet (cache : List ((String × VnAssetType) × CachedQuote))
    (q : CachedQuote) : List ((String × VnAssetType) × CachedQuote) :=
  ((q.symbol, q.asset_type), q) :: cache

/-- Outcomes of the awaited upstream-client calls, passed in explicitly so
theorems quantify over every possible network behaviour. The two
classification helpers (`is_gold_symbol` from `vn_market/models/gold.rs`,
`map_index_symbol` from `vn_market/models/stock.rs`, neither in the provided
sources) are likewise parameters: `service.rs` only branches on their
results. `today` is the calendar date of `chrono::Utc::now()`. -/
structure ClientEnv where
  is_gold_symbol : String → Bool
  map_index_symbol : String → Option String
  vci_latest : String → Except VnMarketError (Option VciQuote)
  fmarket_all_nav : Int → Except VnMarketError (List NavRecord)
  fmarket_nav_range : Int → String → String → Except VnMarketError (List NavRecord)
  sjc_latest : String → Except VnMarketError SjcQuote
  today : Date

/-- The alias list built by `refresh_fund_cache`'s first loop: for each fund,
the uppercased short name and, when present, the uppercased code. -/
def fundAliasList (funds : List FundInfo) : List String :=
  funds.flatMap (fun f => upperStr f.short_name :: (f.code.map upperStr).toList)

/-- One iteration of `refresh_fund_cache`'s second loop: insert the fund's
uppercased short name and, when present, its uppercased code, both bound to
the fund's id. -/
def fundIdsStep (m : List (String × Int)) (f : FundInfo) : List (String × Int) :=
  let m := mapInsert m (upperStr f.short_name) f.id
  match f.code with
  | some c => mapInsert m (upperStr c) f.id
  | none => m

/-- The alias → id map built by `refresh_fund_cache`'s second loop. -/
def fundIdsMap (funds : List FundInfo) : List (String × Int) :=
  funds.foldl fundIdsStep []

/-- `VnMarketService::refresh_fund_cache`. The two awaited FMarket calls
(`client.refresh_fund_cache()` and `client.get_funds_listing()`) are passed
in as their outcomes. On either failure the `?` operator returns before any
mutation; on success `known_funds` and `fund_ids` are cleared and rebuilt
from the fetched listing, and the count from the client refresh is
returned. -/
def refresh_fund_cache (st : ServiceState)
    (clientRefresh : Except VnMarketError Nat)
    (clientListing : Except VnMarketError (List FundInfo)) :
    Except VnMarketError Nat × ServiceState :=
  match clientRefresh with
  | .error e => (.error e, st)
  | .ok count =>
    match clientListing with
    | .error e => (.error e, st)
    | .ok funds =>
      (.ok count,
        { st with
          known_funds := fundAliasList funds,
          fund_ids := fundIdsMap funds })

/-- The index test of `detect_asset_type` on the uppercased symbol:
`map_index_symbol(u).is_some() || u.contains("INDEX") || u == "VN30"
|| u == "HNX30"`. -/
def isIndexUpper (map_index_symbol : String → Option String)
    (u : String) : Bool :=
  (map_index_symbol u).isSome || containsSub u "INDEX" || u == "VN30" || u == "HNX30"

/-- `VnMarketService::detect_asset_type`: gold pattern first, then the index
test on the uppercased symbol, then membership of the uppercased symbol in
`known_funds`, else `Stock`. -/
def detect_asset_type (is_gold_symbol : String → Bool)
    (map_index_symbol : String → Option String)
    (known_funds : List String) (symbol : String) : VnAssetType :=
  let symbol_upper := upperStr symbol
  if is_gold_symbol symbol then VnAssetType.Gold
  else if isIndexUpper map_index_symbol symbol_upper then VnAssetType.Index
  else if known_funds.contains symbol_upper then VnAssetType.Fund
  else VnAssetType.Stock

/-- `VnMarketService::fetch_stock_quote`: propagate a VCI error, map an empty
result to `NoData(symbol, "latest")`, and otherwise normalize the VCI quote
field-for-field with `asset_type` hardcoded to `Stock`, volume cast to
`Decimal`, and the fixed currency code. -/
def fetch_stock_quote (env : ClientEnv) (symbol : String) :
    Except VnMarketError CachedQuote :=
  match env.vci_latest symbol with
  | .error e => .error e
  | .ok none => .error (.NoData symbol "latest")
  | .ok (some q) =>
    .ok { symbol := q.symbol, asset_type := VnAssetType.Stock, date := q.date,
          «open» := q.open, high := q.high, low := q.low, close := q.close,
          volume := decimalOfInt q.volume,
          nav := none, buy_price := none, sell_price := none,
          currency := "VND" }

/-- `VnMarketService::fetch_fund_quote`: resolve the uppercased symbol in
`fund_ids` (else `FundNotFound`), fetch the full NAV history for the id,
take its last entry (else `NoData(symbol, "latest")`), parse its normalized
date with today's date as the fallback, and build the quote with OHLC all
equal to the NAV, volume zero, and the NAV retained. -/
def fetch_fund_quote (env : ClientEnv) (fund_ids : List (String × Int))
    (symbol : String) : Except VnMarketError CachedQuote :=
  match fund_ids.lookup (upperStr symbol) with
  | none => .error (.FundNotFound symbol)
  | some fund_id =>
    match env.fmarket_all_nav fund_id with
    | .error e => .error e
    | .ok history =>
      match history.getLast? with
      | none => .error (.NoData symbol "latest")
      | some latest =>
        let date := (parseDateYMD latest.normalized_date).getD env.today
        let nav := latest.nav
        .ok { symbol := symbol, asset_type := VnAssetType.Fund, date := date,
              «open» := nav, high := nav, low := nav, close := nav,
              volume := 0, nav := some nav,
              buy_price := none, sell_price := none, currency := "VND" }

/-- `VnMarketService::fetch_gold_quote`: propagate an SJC error, otherwise
build the quote with OHLC all equal to the SJC close, volume zero, and the
buy and sell prices retained verbatim. -/
def fetch_gold_quote (env : ClientEnv) (symbol : String) :
    Except VnMarketError CachedQuote :=
  match env.sjc_latest symbol with
  | .error e => .error e
  | .ok q =>
    .ok { symbol := q.symbol, asset_type := VnAssetType.Gold, date := q.date,
          «open» := SjcQuote.close q, high := SjcQuote.close q,
          low := SjcQuote.close q, close := SjcQuote.close q,
          volume := 0, nav := none,
          buy_price := some q.buy_price, sell_price := some q.sell_price,
          currency := "VND" }

/-- `VnMarketService::fetch_fund_history`: resolve the uppercased symbol in
`fund_ids` (else `FundNotFound`), fetch the range-scoped NAV history using
the "%Y-%m-%d" renderings of the bounds, and `filter_map` each record: a
record whose normalized date fails to parse is dropped; the rest become
historical records with OHLC all equal to the NAV, volume zero, and the NAV
retained, in the adapter's order. -/
def fetch_fund_history (env : ClientEnv) (fund_ids : List (String × Int))
    (symbol : String) (startD endD : Date) :
    Except VnMarketError (List VnHistoricalRecord) :=
  match fund_ids.lookup (upperStr symbol) with
  | none => .error (.FundNotFound symbol)
  | some fund_id =>
    match env.fmarket_nav_range fund_id (formatDateYMD startD) (formatDateYMD endD) with
    | .error e => .error e
    | .ok nav_records =>
      .ok (nav_records.filterMap (fun r =>
        (parseDateYMD r.normalized_date).map (fun date =>
          (VnHistoricalRecord.new symbol VnAssetType.Fund date
            r.nav r.nav r.nav r.nav 0).with_nav r.nav)))

/-- `VnMarketService::get_latest_quote`: classify, return a cache hit as-is,
otherwise dispatch on the asset type, and on success store the fetched quote
in the cache (under the quote's own symbol and asset-type fields, §4.3)
before returning it. The returned state is the service state after the
call. -/
def get_latest_quote (env : ClientEnv) (st : ServiceState) (symbol : String) :
    Except VnMarketError CachedQuote × ServiceState :=
  let asset_type :=
    detect_asset_type env.is_gold_symbol env.map_index_symbol st.known_funds symbol
  match cacheGet st.quote_cache symbol asset_type with
  | some cached => (.ok cached, st)
  | none =>
    let fetched : Except VnMarketError CachedQuote :=
      match asset_type with
      | VnAssetType.Stock | VnAssetType.Index => fetch_stock_quote env symbol
      | VnAssetType.Fund => fetch_fund_quote env st.fund_ids symbol
      | VnAssetType.Gold => fetch_gold_quote env symbol
    match fetched with
    | .error e => (.error e, st)
    | .ok quote =>
      (.ok quote, { st with quote_cache := cacheSet st.quote_cache quote })

/-- The stock loop of `VnMarketService::search`: iterate the VCI symbols that
are stock-tagged and listed, push each whose symbol or display name contains
the lowercased query, and break as soon as 20 results have accumulated. -/
def searchStocks (query_lower : String) :
    List VciSymbolInfo → List SearchResult → List SearchResult
  | [], acc => acc
  | s :: rest, acc =>
    if s.stock && s.listed &&
        (containsSub (lowerStr s.symbol) query_lower ||
         containsSub (lowerStr s.display_name) query_lower) then
      let acc' := acc ++
        [{ symbol := s.symbol, name := s.display_name,
           asset_type := VnAssetType.Stock, exchange := s.exchange }]
      if acc'.length ≥ 20 then acc' else searchStocks query_lower rest acc'
    else searchStocks query_lower rest acc

/-- The fund block of `search`: on a successful listing, every fund whose
short name or name contains the lowercased query, uncapped; a listing
failure contributes nothing (`if let Ok`). -/
def fundMatches (clientListing : Except VnMarketError (List FundInfo))
    (query_lower : String) : List SearchResult :=
  match clientListing with
  | .error _ => []
  | .ok funds =>
    funds.filterMap (fun f =>
      if containsSub (lowerStr f.short_name) query_lower ||
         containsSub (lowerStr f.name) query_lower then
        some { symbol := f.short_name, name := f.name,
               asset_type := VnAssetType.Fund, exchange := "FUND" }
      else none)

/-- The gold-keyword test of `search` on the lowercased query. -/
def goldKeyword (query_lower : String) : Bool :=
  containsSub query_lower "gold" || containsSub query_lower "vàng" ||
    query_lower == "sjc"

/-- The two fixed synthetic gold entries `search` appends. -/
def goldResults : List SearchResult :=
  [{ symbol := "VN.GOLD", name := "SJC Gold (Lượng)",
     asset_type := VnAssetType.Gold, exchange := "SJC" },
   { symbol := "VN.GOLD.C", name := "SJC Gold (Chỉ)",
     asset_type := VnAssetType.Gold, exchange := "SJC" }]

/-- `VnMarketService::search`: the awaited VCI `get_all_symbols` call is
propagated through `?` on failure; then the stock loop, the fund block
(failure-tolerant), and the two synthetic gold entries when the lowercased
query matches the gold keyword set. -/
def search (allSymbols : Except VnMarketError (List VciSymbolInfo))
    (clientListing : Except VnMarketError (List FundInfo)) (query : String) :
    Except VnMarketError (List SearchResult) :=
  match allSymbols with
  | .error e => .error e
  | .ok symbols =>
    let query_lower := lowerStr query
    let results := searchStocks query_lower symbols []
    let results := results ++ fundMatches clientListing query_lower
    let results :=
      if goldKeyword query_lower then results ++ goldResults else results
    .ok results

/-- `GoalsAllocation` from `goals/goals_model.rs` (model file not in the
provided sources; the fields are pinned by their uses in `goals_service.rs`
and `api/goals.rs`): id, goal id, account id, integer percent allocation,
optional start and end dates as "YYYY-MM-DD" strings. -/
structure GoalsAllocation where
  id : String
  goal_id : String
  account_id : String
  percent_allocation : Int
  start_date : Option String
  end_date : Option String
deriving DecidableEq, Repr

/-- Modelled from the spec: the error `validate_allocation_conflicts` raises,
`Error::Validation(ValidationError::InvalidInput(msg))` (`errors.rs` is not
in the provided sources); only the message-carrying validation case is
reachable here. -/
inductive GoalsError where
  | InvalidInput (msg : String)
deriving DecidableEq, Repr

/-- One iteration of the accumulation loop of
`GoalService::validate_allocation_conflicts`, verbatim: skip other accounts;
require both dates present; require range overlap by string comparison
(`start <= new_end && end >= new_start`); skip the excluded allocation; add
the rest's percents. -/
def conflictStep (account_id new_start_date new_end_date : String)
    (exclude_allocation_id : Option String) (acc : Int) (a : GoalsAllocation) :
    Int :=
  if a.account_id != account_id then acc
  else
    match a.start_date, a.end_date with
    | some s, some e =>
      if strLe s new_end_date && strLe new_start_date e then
        match exclude_allocation_id with
        | some ex => if a.id == ex then acc else acc + a.percent_allocation
        | none => acc + a.percent_allocation
      else acc
    | _, _ => acc

/-- The whole accumulation loop of `validate_allocation_conflicts`. -/
def conflictingPercent (allocations : List GoalsAllocation)
    (account_id new_start_date new_end_date : String)
    (new_percent_allocation : Int) (exclude_allocation_id : Option String) :
    Int :=
  allocations.foldl
    (conflictStep account_id new_start_date new_end_date exclude_allocation_id)
    new_percent_allocation

/-- `GoalService::validate_allocation_conflicts` given the allocations the
repository returned for non-achieved goals: error (with the formatted
message) exactly when the accumulated percent exceeds 100. -/
def validate_allocation_conflicts (allocations : List GoalsAllocation)
    (account_id new_start_date new_end_date : String)
    (new_percent_allocation : Int) (exclude_allocation_id : Option String) :
    Except GoalsError Unit :=
  if conflictingPercent allocations account_id new_start_date
      new_end_date new_percent_allocation exclude_allocation_id > 100 then
    .error (.InvalidInput ("Total allocation " ++
      toString (conflictingPercent allocations account_id new_start_date
        new_end_date new_percent_allocation exclude_allocation_id) ++
      "% exceeds 100% on account " ++ account_id ++ " during this period"))
  else .ok ()

/-- Independent restatement of claim C10's contribution condition: an
existing allocation contributes to the total iff it is on the same account,
has both dates present, overlaps the new range by string comparison, and is
not the excluded allocation. -/
def contributes (account_id new_start_date new_end_date : String)
    (exclude_allocation_id : Option String) (a : GoalsAllocation) : Bool :=
  a.account_id == account_id &&
  (match a.start_date, a.end_date with
   | some s, some e => strLe s new_end_date && strLe new_start_date e
   | _, _ => false) &&
  (match exclude_allocation_id with
   | some ex => !(a.id == ex)
   | none => true)

/-- Independent restatement of claim C10's total: the new percent plus the
percents of the contributing allocations. -/
def overlappingTotal (allocations : List GoalsAllocation)
    (account_id new_start_date new_end_date : String)
    (new_percent_allocation : Int) (exclude_allocation_id : Option String) :
    Int :=
  new_percent_allocation +
    ((allocations.filter
        (contributes account_id new_start_date new_end_date
          exclude_allocation_id)).map
      (fun a => a.percent_allocation)).sum

/-- A client environment whose every upstream call fails: used to witness that
behaviour settled before a call cannot depend on these clients. -/
def stubEnv : ClientEnv :=
  { is_gold_symbol := fun _ => false,
    map_index_symbol := fun _ => none,
    vci_latest := fun _ => .error (.Transport "unreachable"),
    fmarket_all_nav := fun _ => .error (.Transport "unreachable"),
    fmarket_nav_range := fun _ _ _ => .error (.Transport "unreachable"),
    sjc_latest := fun _ => .error (.Transport "unreachable"),
    today := ⟨2025, 10, 12⟩ }

/-- The two-entry NAV history of the spec's fund-quote example:
(2025-01-01, NAV 10000) then (2025-01-05, NAV 10500). -/
def navHist2025 : List NavRecord :=
  [{ normalized_date := "2025-01-01", nav := 10000 },
   { normalized_date := "2025-01-05", nav := 10500 }]

/-- Environment whose FMarket full-history call returns `navHist2025`. -/
def envFundQuote : ClientEnv :=
  { stubEnv with fmarket_all_nav := fun _ => .ok navHist2025 }

/-- A NAV record whose date does not parse. -/
def badDateRec : NavRecord := { normalized_date := "not-a-date", nav := 9999 }

/-- Environment whose FMarket calls both return only the unparseable-date
record. -/
def envBadDate : ClientEnv :=
  { stubEnv with
    fmarket_all_nav := fun _ => .ok [badDateRec],
    fmarket_nav_range := fun _ _ _ => .ok [badDateRec] }

/-- The three-row fund-history input of the spec's example: a valid
2025-01-01 row, an unparseable "bad-date" row, a valid 2025-01-03 row. -/
def recsThreeRows : List NavRecord :=
  [{ normalized_date := "2025-01-01", nav := 10 },
   { normalized_date := "bad-date", nav := 20 },
   { normalized_date := "2025-01-03", nav := 30 }]

/-- Environment whose FMarket range call returns `recsThreeRows`. -/
def envThreeRows : ClientEnv :=
  { stubEnv with fmarket_nav_range := fun _ _ _ => .ok recsThreeRows }

/-- A VCI quote for the VNINDEX index ticker (the upstream echoes the
requested symbol). -/
def vciQuoteVNI : VciQuote :=
  { symbol := "VNINDEX", date := ⟨2025, 10, 10⟩,
    «open» := 1250, high := 1260, low := 1240, close := 1255,
    volume := 1000000 }

/-- Environment whose VCI latest-quote call answers for "VNINDEX". -/
def envIndex : ClientEnv :=
  { stubEnv with
    vci_latest := fun s => if s == "VNINDEX" then .ok (some vciQuoteVNI) else .ok none }

/-- `envIndex` after the VCI upstream has gone down. -/
def envIndexDown : ClientEnv :=
  { envIndex with vci_latest := fun _ => .error (.Transport "vci down") }

/-- Service state after a first successful `get_latest_quote` for "VNINDEX"
from the initial state. -/
def stAfterIndexCall : ServiceState :=
  (get_latest_quote envIndex ServiceState.initial "VNINDEX").2

/-- Environment whose SJC client answers with a fixed buy/sell pair, echoing
the requested symbol, and which classifies "VN.GOLD" as gold. -/
def envGold : ClientEnv :=
  { stubEnv with
    is_gold_symbol := fun s => s == "VN.GOLD",
    sjc_latest := fun s =>
      .ok { symbol := s, date := ⟨2025, 10, 11⟩,
            buy_price := 119000, sell_price := 121000 } }

/-- The quote the gold path builds for "VN.GOLD" under `envGold`. -/
def goldQuoteFixed : CachedQuote :=
  { symbol := "VN.GOLD", asset_type := VnAssetType.Gold, date := ⟨2025, 10, 11⟩,
    «open» := 121000, high := 121000, low := 121000, close := 121000,
    volume := 0, nav := none, buy_price := some 119000,
    sell_price := some 121000, currency := "VND" }

/-- Service state after a first successful `get_latest_quote` for "VN.GOLD"
from the initial state. -/
def stAfterGoldCall : ServiceState :=
  (get_latest_quote envGold ServiceState.initial "VN.GOLD").2

/-- Fund "A" of the refresh scenario. -/
def fundA : FundInfo := { id := 1, short_name := "A", code := none, name := "Fund A" }

/-- Fund "B" of the refresh scenario. -/
def fundB : FundInfo := { id := 2, short_name := "B", code := none, name := "Fund B" }

/-- Fund "C" of the refresh scenario. -/
def fundC : FundInfo := { id := 3, short_name := "C", code := none, name := "Fund C" }

/-- State after refreshing the initial service with listing [A, B]. -/
def stAfterAB : ServiceState :=
  (refresh_fund_cache ServiceState.initial (.ok 2) (.ok [fundA, fundB])).2

/-- State after then refreshing with listing [C]. -/
def stAfterC : ServiceState :=
  (refresh_fund_cache stAfterAB (.ok 1) (.ok [fundC])).2

/-- Claim C8: if either FMarket call inside `refresh_fund_cache` fails (the
client-side cache refresh or the listing fetch), the call returns that error
and the fund alias list, the alias → id map and the quote cache are left
exactly as they were — no entry is cleared or partially replaced. -/
theorem refresh_fund_cache_failure_leaves_state :
    ∀ (st : ServiceState) (e : VnMarketError)
      (clientListing : Except VnMarketError (List FundInfo)) (n : Nat),
    refresh_fund_cache st (.error e) clientListing = (.error e, st) ∧
    refresh_fund_cache st (.ok n) (.error e) = (.error e, st) :=
  fun _ _ _ _ => ⟨rfl, rfl⟩

/-- Claim C4: `detect_asset_type` is a deterministic first-match-wins
precedence whose only state input is the fund alias list: a gold-pattern
symbol classifies Gold regardless of the registry; otherwise the index test
(alias table, literal index tickers, or "INDEX" substring) gives Index;
otherwise an uppercased symbol among the known fund aliases gives Fund;
otherwise Stock — in particular the empty, never-refreshed alias list gives
Stock for any non-gold non-index symbol. -/
theorem detect_asset_type_precedence :
    ∀ (g : String → Bool) (mi : String → Option String)
      (known : List String) (symbol : String),
    (g symbol = true →
      detect_asset_type g mi known symbol = VnAssetType.Gold) ∧
    (g symbol = false → isIndexUpper mi (upperStr symbol) = true →
      detect_asset_type g mi known symbol = VnAssetType.Index) ∧
    (g symbol = false → isIndexUpper mi (upperStr symbol) = false →
      upperStr symbol ∈ known →
      detect_asset_type g mi known symbol = VnAssetType.Fund) ∧
    (g symbol = false → isIndexUpper mi (upperStr symbol) = false →
      upperStr symbol ∉ known →
      detect_asset_type g mi known symbol = VnAssetType.Stock) ∧
    (g symbol = false → isIndexUpper mi (upperStr symbol) = false →
      detect_asset_type g mi [] symbol = VnAssetType.Stock) := by
  intro g mi known symbol
  refine ⟨fun h1 => ?_, fun h1 h2 => ?_, fun h1 h2 h3 => ?_,
    fun h1 h2 h3 => ?_, fun h1 h2 => ?_⟩
  · simp [detect_asset_type, h1]
  · simp [detect_asset_type, h1, h2]
  · simp [detect_asset_type, h1, h2, h3]
  · simp [detect_asset_type, h1, h2, h3]
  · simp [detect_asset_type, h1, h2]

/-- Witness to C4 at concrete inputs: a gold symbol classifies Gold over the
empty registry; the alias loaded from fund A classifies Fund; the same
literal symbol over the unrefreshed registry classifies Stock. -/
theorem detect_asset_type_precedence_witness :
    detect_asset_type (fun s => s == "VN.GOLD") (fun _ => none) []
      "VN.GOLD" = VnAssetType.Gold ∧
    detect_asset_type (fun _ => false) (fun _ => none)
      (fundAliasList [fundA]) "a" = VnAssetType.Fund ∧
    detect_asset_type (fun _ => false) (fun _ => none) [] "a" =
      VnAssetType.Stock :=
  ⟨(detect_asset_type_precedence (fun s => s == "VN.GOLD") (fun _ => none)
      [] "VN.GOLD").1 (by decide),
   (detect_asset_type_precedence (fun _ => false) (fun _ => none)
      (fundAliasList [fundA]) "a").2.2.1 (by decide) (by decide) (by decide),
   (detect_asset_type_precedence (fun _ => false) (fun _ => none)
      [] "a").2.2.2.2 (by decide) (by decide)⟩

/-- Claim C5: for a Fund-classified symbol, the fund latest-quote path fails
with FundNotFound(symbol) when the uppercased symbol resolves to no fund id,
fails with NoData(symbol, "latest") when the full NAV history is empty, and
otherwise returns the quote built from the last entry of the full NAV
history. -/
theorem fetch_fund_quote_latest_cases :
    ∀ (env : ClientEnv) (fund_ids : List (String × Int)) (symbol : String),
    (fund_ids.lookup (upperStr symbol) = none →
      fetch_fund_quote env fund_ids symbol = .error (.FundNotFound symbol)) ∧
    (∀ fid, fund_ids.lookup (upperStr symbol) = some fid →
      env.fmarket_all_nav fid = .ok [] →
      fetch_fund_quote env fund_ids symbol = .error (.NoData symbol "latest")) ∧
    (∀ fid history latest,
      fund_ids.lookup (upperStr symbol) = some fid →
      env.fmarket_all_nav fid = .ok history →
      history.getLast? = some latest →
      fetch_fund_quote env fund_ids symbol =
        .ok { symbol := symbol, asset_type := VnAssetType.Fund,
              date := (parseDateYMD latest.normalized_date).getD env.today,
              «open» := latest.nav, high := latest.nav, low := latest.nav,
              close := latest.nav, volume := 0, nav := some latest.nav,
              buy_price := none, sell_price := none, currency := "VND" }) := by
  intro env fund_ids symbol
  refine ⟨fun h1 => ?_, fun fid h1 h2 => ?_,
    fun fid history latest h1 h2 h3 => ?_⟩
  · simp [fetch_fund_quote, h1]
  · simp [fetch_fund_quote, h1, h2]
  · simp [fetch_fund_quote, h1, h2, h3]

/-- Witness to C5: with fund id 7 registered for "VCBF" and the history
(2025-01-01, NAV 10000), (2025-01-05, NAV 10500), the latest quote is the
2025-01-05 record with NAV 10500; with an empty registry the same call fails
with FundNotFound. -/
theorem fetch_fund_quote_latest_cases_witness :
    fetch_fund_quote envFundQuote [("VCBF", 7)] "vcbf" =
      .ok { symbol := "vcbf", asset_type := VnAssetType.Fund,
            date := ⟨2025, 1, 5⟩, «open» := 10500, high := 10500,
            low := 10500, close := 10500, volume := 0, nav := some 10500,
            buy_price := none, sell_price := none, currency := "VND" } ∧
    fetch_fund_quote envFundQuote [] "vcbf" = .error (.FundNotFound "vcbf") :=
  ⟨((fetch_fund_quote_latest_cases envFundQuote [("VCBF", 7)] "vcbf").2.2 7
      navHist2025 { normalized_date := "2025-01-05", nav := 10500 }
      (by decide) rfl rfl).trans (by decide),
   (fetch_fund_quote_latest_cases envFundQuote [] "vcbf").1 rfl⟩

/-- Claim C9: in the fund latest-quote path a chronologically-last NAV record
whose date fails to parse is neither dropped nor an error — the quote is
returned with its date replaced by the current UTC calendar date — whereas
the fund history path drops the same record. -/
theorem fund_bad_date_latest_vs_history :
    ∀ (env : ClientEnv) (fund_ids : List (String × Int)) (symbol : String)
      (fid : Int) (history : List NavRecord) (latest : NavRecord),
    fund_ids.lookup (upperStr symbol) = some fid →
    parseDateYMD latest.normalized_date = none →
    (env.fmarket_all_nav fid = .ok history →
      history.getLast? = some latest →
      fetch_fund_quote env fund_ids symbol =
        .ok { symbol := symbol, asset_type := VnAssetType.Fund,
              date := env.today, «open» := latest.nav, high := latest.nav,
              low := latest.nav, close := latest.nav, volume := 0,
              nav := some latest.nav, buy_price := none, sell_price := none,
              currency := "VND" }) ∧
    (∀ startD endD,
      env.fmarket_nav_range fid (formatDateYMD startD) (formatDateYMD endD) =
        .ok [latest] →
      fetch_fund_history env fund_ids symbol startD endD = .ok []) := by
  intro env fund_ids symbol fid history latest h1 hbad
  constructor
  · intro h2 h3
    simp [fetch_fund_quote, h1, h2, h3, hbad]
  · intro startD endD h2
    simp [fetch_fund_history, h1, h2, hbad]

/-- Witness to C9: the single record dated "not-a-date" still yields a latest
quote, dated with today's date (2025-10-12 in the fixture) and carrying its
NAV, while the history call over any range drops it and returns the empty
list. -/
theorem fund_bad_date_latest_vs_history_witness :
    fetch_fund_quote envBadDate [("VCBF", 7)] "VCBF" =
      .ok { symbol := "VCBF", asset_type := VnAssetType.Fund,
            date := ⟨2025, 10, 12⟩, «open» := 9999, high := 9999, low := 9999,
            close := 9999, volume := 0, nav := some 9999, buy_price := none,
            sell_price := none, currency := "VND" } ∧
    fetch_fund_history envBadDate [("VCBF", 7)] "VCBF" ⟨2025, 1, 1⟩
      ⟨2025, 12, 31⟩ = .ok [] :=
  ⟨((fund_bad_date_latest_vs_history envBadDate [("VCBF", 7)] "VCBF" 7
      [badDateRec] badDateRec (by decide) (by decide)).1 rfl rfl).trans
      (by decide),
   (fund_bad_date_latest_vs_history envBadDate [("VCBF", 7)] "VCBF" 7
      [badDateRec] badDateRec (by decide) (by decide)).2 ⟨2025, 1, 1⟩
      ⟨2025, 12, 31⟩ rfl⟩

/-- Claim C7: every successful Gold latest quote has open = high = low =
close = the sell price, retains the buy and sell prices verbatim, and has
volume zero; every successful Fund latest quote has open = high = low =
close = the NAV, retains the NAV, and has volume zero. -/
theorem quote_shape_gold_and_fund :
    (∀ (env : ClientEnv) (symbol : String) (q : SjcQuote),
      env.sjc_latest symbol = .ok q →
      fetch_gold_quote env symbol =
        .ok { symbol := q.symbol, asset_type := VnAssetType.Gold,
              date := q.date, «open» := q.sell_price, high := q.sell_price,
              low := q.sell_price, close := q.sell_price, volume := 0,
              nav := none, buy_price := some q.buy_price,
              sell_price := some q.sell_price, currency := "VND" }) ∧
    (∀ (env : ClientEnv) (fund_ids : List (String × Int)) (symbol : String)
        (quote : CachedQuote),
      fetch_fund_quote env fund_ids symbol = .ok quote →
      quote.open = quote.close ∧ quote.high = quote.close ∧
      quote.low = quote.close ∧ quote.nav = some quote.close ∧
      quote.volume = 0) := by
  constructor
  · intro env symbol q h
    simp [fetch_gold_quote, h, SjcQuote.close]
  · intro env fund_ids symbol quote h
    unfold fetch_fund_quote at h
    split at h
    · simp at h
    · split at h
      · simp at h
      · split at h
        · simp at h
        · simp only [Except.ok.injEq] at h
          subst h
          exact ⟨rfl, rfl, rfl, rfl, rfl⟩

/-- Witness to C7: the gold quote for the fixed SJC buy/sell pair
(119000, 121000) has OHLC all 121000 (the sell price) and volume zero, and
the fund quote for the (2025-01-05, NAV 10500) history head satisfies the
Fund shape equations. -/
theorem quote_shape_gold_and_fund_witness :
    fetch_gold_quote envGold "VN.GOLD" = .ok goldQuoteFixed ∧
    ((fetch_fund_quote envFundQuote [("VCBF", 7)] "vcbf").toOption.map
        (fun q => q.open == q.close && q.high == q.close && q.low == q.close &&
          q.nav == some q.close && q.volume == 0)) = some true :=
  ⟨((quote_shape_gold_and_fund.1 envGold "VN.GOLD"
      { symbol := "VN.GOLD", date := ⟨2025, 10, 11⟩,
        buy_price := 119000, sell_price := 121000 } rfl).trans (by decide)),
   by decide⟩

/-- A `filterMap` whose function is an `Option.map` over a partial projection
keeps exactly the elements on which the projection succeeds, in order. -/
theorem filterMap_map_eq_filter {α β γ : Type} (h : α → Option γ)
    (g : α → γ → β) (d : γ) :
    ∀ l : List α,
    l.filterMap (fun r => (h r).map (g r)) =
      (l.filter (fun r => (h r).isSome)).map (fun r => g r ((h r).getD d)) := by
  intro l
  induction l with
  | nil => rfl
  | cons x xs ih =>
    cases hx : h x <;>
      simp [List.filterMap_cons, List.filter_cons, hx, ih]

/-- Claim C6: the fund history path drops each NAV record whose date fails
to parse individually and returns the remaining records, converted, in the
adapter's order — one bad row never fails the whole batch. -/
theorem fetch_fund_history_drops_bad_rows :
    ∀ (env : ClientEnv) (fund_ids : List (String × Int)) (symbol : String)
      (startD endD : Date) (fid : Int) (recs : List NavRecord),
    fund_ids.lookup (upperStr symbol) = some fid →
    env.fmarket_nav_range fid (formatDateYMD startD) (formatDateYMD endD) =
      .ok recs →
    fetch_fund_history env fund_ids symbol startD endD =
      .ok ((recs.filter
          (fun r => (parseDateYMD r.normalized_date).isSome)).map
        (fun r =>
          (VnHistoricalRecord.new symbol VnAssetType.Fund
              ((parseDateYMD r.normalized_date).getD ⟨1, 1, 1⟩)
              r.nav r.nav r.nav r.nav 0).with_nav r.nav)) := by
  intro env fund_ids symbol startD endD fid recs h1 h2
  simp only [fetch_fund_history, h1, h2]
  exact congrArg Except.ok
    (filterMap_map_eq_filter (fun r => parseDateYMD r.normalized_date)
      (fun r date =>
        (VnHistoricalRecord.new symbol VnAssetType.Fund date
          r.nav r.nav r.nav r.nav 0).with_nav r.nav)
      ⟨1, 1, 1⟩ recs)

/-- Witness to C6: the three-row input dated "2025-01-01" (valid),
"bad-date" (invalid), "2025-01-03" (valid) yields exactly the two valid
records, and their dates are in chronological ascending order. -/
theorem fetch_fund_history_drops_bad_rows_witness :
    fetch_fund_history envThreeRows [("VCBF", 7)] "VCBF" ⟨2025, 1, 1⟩
        ⟨2025, 1, 31⟩ =
      .ok [(VnHistoricalRecord.new "VCBF" VnAssetType.Fund ⟨2025, 1, 1⟩
              10 10 10 10 0).with_nav 10,
           (VnHistoricalRecord.new "VCBF" VnAssetType.Fund ⟨2025, 1, 3⟩
              30 30 30 30 0).with_nav 30] ∧
    Date.ltB ⟨2025, 1, 1⟩ ⟨2025, 1, 3⟩ = true :=
  ⟨(fetch_fund_history_drops_bad_rows envThreeRows [("VCBF", 7)] "VCBF"
      ⟨2025, 1, 1⟩ ⟨2025, 1, 31⟩ 7 recsThreeRows (by decide) rfl).trans
      (by decide),
   by decide⟩

/-- A cons-cell lookup succeeds exactly for the new key or a key of the
tail. -/
theorem lookup_cons_isSome (k : String) (v : Int) (m : List (String × Int))
    (a : String) :
    ((((k, v) :: m).lookup a).isSome = true) ↔
      (a = k ∨ (m.lookup a).isSome = true) := by
  cases h : a == k
  · have hne : ¬ a = k := by simpa using h
    simp [List.lookup, h, hne]
  · have heq : a = k := by simpa using h
    simp [List.lookup, h, heq]

/-- Looking up after one `fundIdsStep` succeeds exactly for the fund's own
aliases or for keys already bound. -/
theorem fundIdsStep_lookup (m : List (String × Int)) (f : FundInfo)
    (a : String) :
    (((fundIdsStep m f).lookup a).isSome = true) ↔
      ((a = upperStr f.short_name ∨ ∃ c, f.code = some c ∧ a = upperStr c) ∨
        (m.lookup a).isSome = true) := by
  cases hc : f.code with
  | none =>
    simp only [fundIdsStep, hc, mapInsert]
    rw [lookup_cons_isSome]
    simp
  | some c =>
    simp only [fundIdsStep, hc, mapInsert]
    rw [lookup_cons_isSome, lookup_cons_isSome]
    simp
    tauto

/-- Membership in the alias list of a cons listing. -/
theorem mem_fundAliasList_cons (f : FundInfo) (rest : List FundInfo)
    (a : String) :
    a ∈ fundAliasList (f :: rest) ↔
      ((a = upperStr f.short_name ∨ ∃ c, f.code = some c ∧ a = upperStr c) ∨
        a ∈ fundAliasList rest) := by
  cases hc : f.code with
  | none => simp [fundAliasList, hc]
  | some c =>
    simp [fundAliasList, hc]
    exact or_assoc.symm

/-- The id map built by folding `fundIdsStep` over a listing resolves exactly
the aliases of that listing plus whatever the seed map already resolved. -/
theorem fundIds_foldl_lookup (funds : List FundInfo) :
    ∀ (m : List (String × Int)) (a : String),
    (((funds.foldl fundIdsStep m).lookup a).isSome = true) ↔
      (a ∈ fundAliasList funds ∨ (m.lookup a).isSome = true) := by
  induction funds with
  | nil => intro m a; simp [fundAliasList]
  | cons f rest ih =>
    intro m a
    rw [List.foldl_cons, ih, fundIdsStep_lookup, mem_fundAliasList_cons]
    constructor
    · rintro (hr | hA | hm)
      · exact Or.inl (Or.inr hr)
      · exact Or.inl (Or.inl hA)
      · exact Or.inr hm
    · rintro ((hA | hr) | hm)
      · exact Or.inr (Or.inl hA)
      · exact Or.inl hr
      · exact Or.inr (Or.inr hm)

/-- Claim C3: a successful `refresh_fund_cache` that fetched listing `funds`
replaces the alias list and the alias → id map wholesale and together: both
are rebuilt exactly from the uppercased short names and optional codes of
`funds`, an alias is in the alias list iff it resolves in the id map (so no
alias from an earlier listing survives, and no alias is ever present without
a matching id), the quote cache is untouched, and the client's count is
returned. -/
theorem refresh_fund_cache_replaces_wholesale :
    ∀ (st : ServiceState) (n count : Nat) (funds : List FundInfo)
      (st' : ServiceState),
    refresh_fund_cache st (.ok n) (.ok funds) = (.ok count, st') →
    count = n ∧
    st'.known_funds = fundAliasList funds ∧
    st'.fund_ids = fundIdsMap funds ∧
    (∀ a, a ∈ st'.known_funds ↔ ((st'.fund_ids.lookup a).isSome = true)) ∧
    st'.quote_cache = st.quote_cache := by
  intro st n count funds st' h
  simp only [refresh_fund_cache] at h
  rw [Prod.mk.injEq] at h
  obtain ⟨h1, h2⟩ := h
  injection h1 with h1
  subst h1
  subst h2
  refine ⟨rfl, rfl, rfl, ?_, rfl⟩
  intro a
  show a ∈ fundAliasList funds ↔ (((fundIdsMap funds).lookup a).isSome = true)
  rw [fundIdsMap, fundIds_foldl_lookup]
  simp [List.lookup]

/-- Witness to C3: refreshing with [A, B] and then with [C] makes resolution
of "A" fail with FundNotFound while "C" resolves to fund id 3 (and "A" did
resolve after the first refresh); the refreshed alias list and id map agree
on "C". -/
theorem refresh_fund_cache_replaces_wholesale_witness :
    fetch_fund_quote stubEnv stAfterC.fund_ids "A" =
      .error (.FundNotFound "A") ∧
    stAfterC.fund_ids.lookup "C" = some 3 ∧
    stAfterAB.fund_ids.lookup "A" = some 1 ∧
    ("C" ∈ stAfterC.known_funds ↔
      ((stAfterC.fund_ids.lookup "C").isSome = true)) :=
  ⟨by decide, by decide, by decide,
   (refresh_fund_cache_replaces_wholesale stAfterAB 1 1 [fundC] stAfterC
      rfl).2.2.2.1 "C"⟩

/-- Claim C1 counterexample: when the equity symbol fetch fails, `search`
returns the error instead of a degraded result list — even for the query
"gold", for which the claim promises the two synthetic gold entries. -/
theorem search_equity_failure_counterexample :
    search (.error (.Transport "vci down"))
      (.error (.Transport "fmarket down")) "gold" =
      .error (.Transport "vci down") := rfl

/-- Claim C1 (amended): `search` degrades only over the fund source — when
the fund-listing fetch fails but the equity fetch succeeds, the call still
returns a result list: the capped equity matches followed, exactly for a
gold-keyword query, by the two synthetic gold entries (for the query "gold"
with no equity symbols, exactly those two entries); when the equity fetch
fails, `search` returns that error. -/
theorem search_fund_failure_degrades :
    ∀ (syms : List VciSymbolInfo) (e e' : VnMarketError) (query : String),
    search (.ok syms) (.error e) query =
      .ok (searchStocks (lowerStr query) syms [] ++
        (if goldKeyword (lowerStr query) then goldResults else [])) ∧
    search (.error e') (.error e) query = .error e' ∧
    search (.ok []) (.error e) "gold" = .ok goldResults := by
  intro syms e e' query
  refine ⟨?_, rfl, rfl⟩
  simp only [search, fundMatches, List.append_nil]
  split <;> simp

/-- A quote fetched by the stock path carries asset type Stock (hardcoded in
`fetch_stock_quote`, also when the requested symbol classified as Index). -/
theorem fetch_stock_quote_type :
    ∀ (env : ClientEnv) (symbol : String) (q : CachedQuote),
    fetch_stock_quote env symbol = .ok q →
    q.asset_type = VnAssetType.Stock := by
  intro env symbol q h
  unfold fetch_stock_quote at h
  split at h
  · simp at h
  · simp at h
  · simp only [Except.ok.injEq] at h
    subst h
    rfl

/-- A quote fetched by the fund path carries asset type Fund. -/
theorem fetch_fund_quote_type :
    ∀ (env : ClientEnv) (fund_ids : List (String × Int)) (symbol : String)
      (q : CachedQuote),
    fetch_fund_quote env fund_ids symbol = .ok q →
    q.asset_type = VnAssetType.Fund := by
  intro env fund_ids symbol q h
  unfold fetch_fund_quote at h
  split at h
  · simp at h
  · split at h
    · simp at h
    · split at h
      · simp at h
      · simp only [Except.ok.injEq] at h
        subst h
        rfl

/-- A quote fetched by the gold path carries asset type Gold. -/
theorem fetch_gold_quote_type :
    ∀ (env : ClientEnv) (symbol : String) (q : CachedQuote),
    fetch_gold_quote env symbol = .ok q →
    q.asset_type = VnAssetType.Gold := by
  intro env symbol q h
  unfold fetch_gold_quote at h
  split at h
  · simp at h
  · simp only [Except.ok.injEq] at h
    subst h
    rfl

/-- Claim C2 (amended): for a symbol that does not classify as Index, a
successful `get_latest_quote` leaves the registry untouched and stores the
fetched quote under the quote's own symbol and embedded asset type — which
for Stock, Fund and Gold classifications equals the classified type — so
when the adapter echoed the requested symbol, a second sequential call is
answered from the cache with the same quote and the same state, regardless
of the second call's adapter behaviour. For Index-classified symbols the
fetched quote is embedded with type Stock, so the second lookup, made under
(symbol, Index), misses and the adapter is consulted again. -/
theorem get_latest_quote_caches_then_serves :
    ∀ (env env2 : ClientEnv) (st : ServiceState) (symbol : String)
      (quote : CachedQuote) (st' : ServiceState),
    env2.is_gold_symbol = env.is_gold_symbol →
    env2.map_index_symbol = env.map_index_symbol →
    detect_asset_type env.is_gold_symbol env.map_index_symbol st.known_funds
      symbol ≠ VnAssetType.Index →
    get_latest_quote env st symbol = (.ok quote, st') →
    quote.symbol = symbol →
    st'.known_funds = st.known_funds ∧
    get_latest_quote env2 st' symbol = (.ok quote, st') := by
  intro env env2 st symbol quote st' hg hm hni h hsym
  cases hc : cacheGet st.quote_cache symbol
      (detect_asset_type env.is_gold_symbol env.map_index_symbol
        st.known_funds symbol) with
  | some cached =>
    simp only [get_latest_quote, hc] at h
    rw [Prod.mk.injEq] at h
    obtain ⟨hq, hs⟩ := h
    injection hq with hq
    subst hq
    subst hs
    refine ⟨rfl, ?_⟩
    simp only [get_latest_quote, hg, hm, hc]
  | none =>
    simp only [get_latest_quote, hc] at h
    split at h
    · simp at h
    · rename_i q heq
      rw [Prod.mk.injEq] at h
      obtain ⟨hq, hs⟩ := h
      injection hq with hq
      subst hq
      subst hs
      refine ⟨rfl, ?_⟩
      have htype : q.asset_type =
          detect_asset_type env.is_gold_symbol env.map_index_symbol
            st.known_funds symbol := by
        cases ht : detect_asset_type env.is_gold_symbol env.map_index_symbol
            st.known_funds symbol with
        | Index => exact absurd ht hni
        | Stock =>
          rw [ht] at heq
          exact fetch_stock_quote_type env symbol q heq
        | Fund =>
          rw [ht] at heq
          exact fetch_fund_quote_type env st.fund_ids symbol q heq
        | Gold =>
          rw [ht] at heq
          exact fetch_gold_quote_type env symbol q heq
      have hget : cacheGet (cacheSet st.quote_cache q) symbol
          (detect_asset_type env.is_gold_symbol env.map_index_symbol
            st.known_funds symbol) = some q := by
        simp [cacheGet, cacheSet, hsym, ← htype]
      simp only [get_latest_quote, hg, hm, hget]

/-- Claim C2 counterexample: the symbol VNINDEX classifies as Index and a
first call from the empty state succeeds, but the fetched quote is embedded
with asset type Stock, so it is cached under the pair (VNINDEX, Stock): the
cache lookup under (VNINDEX, Index) misses, and a second sequential call
consults the adapter again — here the adapter has meanwhile gone down, and
the second call surfaces its error instead of the cached quote. -/
theorem get_latest_quote_index_not_cached :
    detect_asset_type envIndex.is_gold_symbol envIndex.map_index_symbol
      ServiceState.initial.known_funds "VNINDEX" = VnAssetType.Index ∧
    (get_latest_quote envIndex ServiceState.initial "VNINDEX").1 =
      .ok { symbol := "VNINDEX", asset_type := VnAssetType.Stock,
            date := ⟨2025, 10, 10⟩, «open» := 1250, high := 1260, low := 1240,
            close := 1255, volume := 1000000, nav := none, buy_price := none,
            sell_price := none, currency := "VND" } ∧
    cacheGet stAfterIndexCall.quote_cache "VNINDEX" VnAssetType.Index =
      none ∧
    (get_latest_quote envIndexDown stAfterIndexCall "VNINDEX").1 =
      .error (.Transport "vci down") :=
  ⟨by decide, by decide, by decide, by decide⟩

/-- Witness to the amended C2 at a Gold-classified symbol: after a first
successful call for VN.GOLD from the initial state, the registry part of the
state is unchanged and a second call — made against an environment whose
every adapter fails — is served the same quote from the cache. -/
theorem get_latest_quote_caches_then_serves_witness :
    stAfterGoldCall.known_funds = ServiceState.initial.known_funds ∧
    get_latest_quote { stubEnv with is_gold_symbol := envGold.is_gold_symbol }
      stAfterGoldCall "VN.GOLD" = (.ok goldQuoteFixed, stAfterGoldCall) :=
  get_latest_quote_caches_then_serves envGold
    { stubEnv with is_gold_symbol := envGold.is_gold_symbol }
    ServiceState.initial "VN.GOLD" goldQuoteFixed stAfterGoldCall rfl rfl
    (by decide) (by decide) rfl

/-- One loop iteration adds the allocation's percent exactly when the
allocation contributes in the sense of `contributes`. -/
theorem conflictStep_eq_if (account_id ns ne : String) (ex : Option String)
    (acc : Int) (a : GoalsAllocation) :
    conflictStep account_id ns ne ex acc a =
      acc + (if contributes account_id ns ne ex a then a.percent_allocation
             else 0) := by
  unfold conflictStep contributes
  cases hacct : a.account_id == account_id
  · simp [bne, hacct]
  · cases hs : a.start_date with
    | none => simp [bne, hacct, hs]
    | some s =>
      cases he : a.end_date with
      | none => simp [bne, hacct, hs, he]
      | some e =>
        cases hov : strLe s ne && strLe ns e
        · simp [bne, hacct, hs, he, hov]
        · cases hex : ex with
          | none => simp [bne, hacct, hs, he, hov, hex]
          | some x =>
            cases hid : a.id == x <;>
              simp [bne, hacct, hs, he, hov, hex, hid]

/-- The whole loop computes the new percent plus the sum of the contributing
allocations' percents. -/
theorem conflictingPercent_eq_overlappingTotal
    (account_id ns ne : String) (ex : Option String) :
    ∀ (l : List GoalsAllocation) (init : Int),
    l.foldl (conflictStep account_id ns ne ex) init =
      init + ((l.filter (contributes account_id ns ne ex)).map
        (fun a => a.percent_allocation)).sum := by
  intro l
  induction l with
  | nil => intro init; simp
  | cons a rest ih =>
    intro init
    rw [List.foldl_cons, ih, conflictStep_eq_if]
    cases hc : contributes account_id ns ne ex a
    · simp [List.filter_cons, hc]
    · simp [List.filter_cons, hc]
      omega

/-- Claim C10: `validate_allocation_conflicts` accepts exactly when the new
percent plus the percents of the same-account allocations that have both
dates present, overlap the new range by string comparison, and are not the
excluded allocation is at most 100 — so a total of exactly 100 is accepted,
an allocation missing either date never contributes, and any total beyond
100 is rejected with a validation error. -/
theorem validate_allocation_conflicts_iff :
    ∀ (allocations : List GoalsAllocation)
      (account_id new_start_date new_end_date : String)
      (new_percent_allocation : Int)
      (exclude_allocation_id : Option String),
    validate_allocation_conflicts allocations account_id new_start_date
        new_end_date new_percent_allocation exclude_allocation_id = .ok () ↔
      overlappingTotal allocations account_id new_start_date new_end_date
        new_percent_allocation exclude_allocation_id ≤ 100 := by
  intro allocations account_id ns ne np ex
  have hconv : conflictingPercent allocations account_id ns ne np ex =
      overlappingTotal allocations account_id ns ne np ex := by
    unfold conflictingPercent overlappingTotal
    exact conflictingPercent_eq_overlappingTotal account_id ns ne ex
      allocations np
  unfold validate_allocation_conflicts
  rw [hconv]
  split
  · rename_i hgt
    constructor
    · intro h
      exact absurd h (by simp)
    · intro hle
      omega
  · rename_i hle
    simp
    omega
